import Mathlib

/-!
Verification of the `simple-express-app` demo (auth middleware, error
handler, auth routes, Socket.IO handlers, Mongoose schemas) by a shallow
embedding of the JavaScript source into Lean.

External libraries (jsonwebtoken, bcryptjs, express-validator, Socket.IO,
Mongoose) are modelled either abstractly, as function parameters with the
properties the library documents, or by small executable models; the
repository's own code is translated line by line.
-/

namespace ExpressApp

/-! ## JSON-ish scalar values and flat objects

Socket.IO payloads and route bodies are plain JS objects whose fields are
scalars.  `JScalar.undef` models JS `undefined` (a missing field). -/

inductive JScalar where
  | str (s : String)
  | num (n : Nat)
  | bool (b : Bool)
  | undef
deriving Repr, DecidableEq

/-- A flat JS object: an association list of field names to scalar values. -/
abbrev JObj := List (String × JScalar)

/-- Field access `data.k`: the first binding of `k`, `undefined` when absent. -/
def getField (o : JObj) (k : String) : JScalar :=
  match o.find? (fun p => p.1 == k) with
  | some p => p.2
  | none => JScalar.undef

/-! ## Auth middleware (`middleware/auth.js`, shown verbatim in the guide)

```js
const auth = (req, res, next) => {
  const token = req.header("Authorization")?.replace("Bearer ", "");
  if (!token) {
    return res.status(401).json({ error: "No token, authorization denied" });
  }
  try {
    const decoded = jwt.verify(token, process.env.JWT_SECRET);
    req.user = { id: decoded.id };
    next();
  } catch (error) {
    res.status(401).json({ error: "Token is not valid" });
  }
};
```
-/

/-- JS `String.prototype.replace` with a string pattern replaces only the
first occurrence.  Implemented over character lists. -/
def replaceFirstList (pat rep : List Char) : List Char → List Char
  | [] => []
  | c :: rest =>
    if pat.isPrefixOf (c :: rest) then rep ++ (c :: rest).drop pat.length
    else c :: replaceFirstList pat rep rest

/-- `s.replace(pat, rep)` for string patterns (first occurrence only). -/
def replaceFirst (s pat rep : String) : String :=
  ⟨replaceFirstList pat.data rep.data s.data⟩

/-- The payloads this app signs are `{ id: user._id }`. -/
structure JwtPayload where
  id : Nat
deriving Repr, DecidableEq

/-- `req.header("Authorization")?.replace("Bearer ", "")`: `none` models an
absent header (the optional chaining yields `undefined`). -/
def extractToken (header : Option String) : Option String :=
  header.map (fun h => replaceFirst h "Bearer " "")

/-- Outcome of the middleware.  `denied s e` models `res.status(s).json({error: e})`
with `next()` NOT called; `authorized i` models `req.user = { id: i }`
followed by `next()`. -/
inductive AuthOutcome where
  | denied (status : Nat) (error : String)
  | authorized (userId : Nat)
deriving Repr, DecidableEq

/-- The middleware body.  `verify` abstracts `jwt.verify(·, JWT_SECRET)`:
`none` models a thrown verification error, `some p` the decoded payload.
`if t = ""` together with the `none` case models JS `if (!token)`
(`undefined` and `""` are the falsy possibilities). -/
def auth (verify : String → Option JwtPayload) (header : Option String) :
    AuthOutcome :=
  match extractToken header with
  | none => AuthOutcome.denied 401 "No token, authorization denied"
  | some t =>
    if t = "" then AuthOutcome.denied 401 "No token, authorization denied"
    else
      match verify t with
      | none => AuthOutcome.denied 401 "Token is not valid"
      | some d => AuthOutcome.authorized d.id

/-! ## Error-handling middleware (`middleware/error.js`)

```js
const errorHandler = (err, req, res, next) => {
  let error = { ...err };
  error.message = err.message;
  if (err.name === "CastError") { error = { message: "Resource not found", statusCode: 404 }; }
  if (err.code === 11000) { error = { message: "Duplicate field value entered", statusCode: 400 }; }
  if (err.name === "ValidationError") {
    const message = Object.values(err.errors).map((val) => val.message);
    error = { message, statusCode: 400 };
  }
  res.status(error.statusCode || 500).json({
    success: false,
    error: error.message || "Server Error",
  });
};
```
-/

/-- `error.message` is a string except in the ValidationError branch, where
it is an array of the individual validation messages. -/
inductive MsgVal where
  | str (s : String)
  | arr (l : List String)
deriving Repr, DecidableEq

/-- JS truthiness of a message value: `""` is falsy, every array is truthy. -/
def msgTruthy : MsgVal → Bool
  | MsgVal.str s => s ≠ ""
  | MsgVal.arr _ => true

/-- The error object reaching the handler: `name` (always present on JS
errors), `code` and `statusCode` (own properties when previously assigned;
`statusCode` is copied by the `{ ...err }` spread), `message`, and for
ValidationErrors the list of per-field messages
(`Object.values(err.errors).map(v => v.message)`). -/
structure ErrInput where
  name : String
  code : Option Nat
  message : String
  statusCode : Option Nat
  errors : List String
deriving Repr, DecidableEq

/-- The working `error` record: only `message` and `statusCode` reach the
response. -/
structure WorkErr where
  message : MsgVal
  statusCode : Option Nat
deriving Repr, DecidableEq

/-- `error.statusCode || 500`: absent or `0` (falsy) falls back to 500. -/
def statusOr500 : Option Nat → Nat
  | some n => if n = 0 then 500 else n
  | none => 500

/-- The JSON response of the error handler. -/
structure ErrResponse where
  status : Nat
  success : Bool
  error : MsgVal
deriving Repr, DecidableEq

/-- `errorHandler`, translated check by check; the three `if`s run in
sequence, each reassigning `error` wholly when it fires. -/
def errorHandler (err : ErrInput) : ErrResponse :=
  let e0 : WorkErr := ⟨MsgVal.str err.message, err.statusCode⟩
  let e1 := if err.name = "CastError" then
      (⟨MsgVal.str "Resource not found", some 404⟩ : WorkErr) else e0
  let e2 := if err.code = some 11000 then
      (⟨MsgVal.str "Duplicate field value entered", some 400⟩ : WorkErr) else e1
  let e3 := if err.name = "ValidationError" then
      (⟨MsgVal.arr err.errors, some 400⟩ : WorkErr) else e2
  ⟨statusOr500 e3.statusCode, false,
    if msgTruthy e3.message then e3.message else MsgVal.str "Server Error"⟩

/-! ## User model (`models/User.js`)

```js
userSchema.pre("save", async function (next) {
  if (!this.isModified("password")) return next();
  this.password = await bcrypt.hash(this.password, 10);
});
userSchema.methods.comparePassword = async function (candidatePassword) {
  return bcrypt.compare(candidatePassword, this.password);
};
```

`bcrypt.hash(·, 10)` and `bcrypt.compare` are external library calls and are
abstracted as parameters `hash : String → String` and
`compare : String → String → Bool`; the properties bcrypt documents
(comparing against a hash succeeds exactly for the hashed password, and a
hash is never its own input) enter the theorems as hypotheses. -/

/-- An unsaved Mongoose `User` document; `passwordModified` models
`this.isModified("password")` (true for a freshly constructed document). -/
structure UserDoc where
  name : String
  email : String
  password : String
  passwordModified : Bool
deriving Repr, DecidableEq

/-- The `pre("save")` hook: hash the password when it was modified,
otherwise leave the document untouched. -/
def preSave (hash : String → String) (u : UserDoc) : UserDoc :=
  if u.passwordModified then
    { u with password := hash u.password, passwordModified := false }
  else u

/-- A user record as persisted in MongoDB (`_id` modelled as a `Nat`). -/
structure StoredUser where
  id : Nat
  name : String
  email : String
  password : String
deriving Repr, DecidableEq

/-- `userSchema.methods.comparePassword`: bcrypt-compare the candidate
against the stored password field. -/
def comparePassword (compare : String → String → Bool) (u : StoredUser)
    (candidate : String) : Bool :=
  compare candidate u.password

/-- The users collection; `User.findOne({ email })`. -/
def findUser (st : List StoredUser) (email : String) : Option StoredUser :=
  st.find? (fun u => u.email == email)

/-! ## Register and login routes (`routes/auth.js`)

The validation chain is express-validator:

```js
body("name").trim().isLength({ min: 2 }).withMessage("Name must be at least 2 characters"),
body("email").isEmail().normalizeEmail().withMessage("Invalid email"),
body("password").isLength({ min: 6 }).withMessage("Password must be at least 6 characters"),
```

`trim()` and `normalizeEmail()` are sanitizers that rewrite `req.body` in
place before the handler destructures it. -/

/-- Modelled from the validator library: `normalizeEmail()` with its default
options lowercases the address (`all_lowercase: true`); provider-specific
rewrites (gmail dot removal, etc.) are not modelled.  Implemented over the
character list so it evaluates inside the kernel. -/
def normalizeEmail (e : String) : String := ⟨e.data.map Char.toLower⟩

/-- JS `String.prototype.trim`: strip whitespace from both ends.
Implemented over the character list so it evaluates inside the kernel. -/
def jsTrim (s : String) : String :=
  ⟨((s.data.dropWhile Char.isWhitespace).reverse.dropWhile
      Char.isWhitespace).reverse⟩

/-- Split a character list at every occurrence of the separator. -/
def splitOnChar (c : Char) : List Char → List (List Char)
  | [] => [[]]
  | x :: xs =>
    match splitOnChar c xs with
    | [] => [[]]
    | h :: t => if x = c then [] :: h :: t else (x :: h) :: t

/-- Modelled from the validator library: a simplified `isEmail()` — exactly
one `@`, nonempty local part, and a domain made of at least two nonempty
dot-separated labels. -/
def isEmailValid (s : String) : Bool :=
  match splitOnChar '@' s.data with
  | [lp, dom] =>
    !lp.isEmpty && !dom.isEmpty && (splitOnChar '.' dom).length ≥ 2 &&
      (splitOnChar '.' dom).all (fun l => !l.isEmpty)
  | _ => false

/-- A registration/login request body. -/
structure RegBody where
  name : String
  email : String
  password : String
deriving Repr, DecidableEq

/-- The validation errors collected by the chain, in chain order, with the
`withMessage` texts. -/
def validateRegister (b : RegBody) : List String :=
  (if (jsTrim b.name).length < 2 then ["Name must be at least 2 characters"]
   else []) ++
  (if isEmailValid b.email = false then ["Invalid email"] else []) ++
  (if b.password.length < 6 then ["Password must be at least 6 characters"]
   else [])

/-- JSON bodies the auth routes answer with. -/
inductive ApiBody where
  | errors (l : List String)
  | errMsg (s : String)
  | authOk (token : String) (id : Nat) (name : String) (email : String)
deriving Repr, DecidableEq

/-- Database operations a handler performs, in order. -/
inductive DbOp where
  | findOneUser (email : String)
  | saveUser (u : StoredUser)
deriving Repr, DecidableEq

/-- Result of a route handler: HTTP status, JSON body, users collection
after the request, and the database operations performed. -/
structure RouteResult where
  status : Nat
  body : ApiBody
  state : List StoredUser
  dbOps : List DbOp
deriving Repr, DecidableEq

/-- A fresh `_id` for a new document. -/
def freshId (st : List StoredUser) : Nat := st.length

/-- `POST /api/auth/register`.  `hash` abstracts `bcrypt.hash(·, 10)` (used
via the pre-save hook) and `sign` abstracts
`jwt.sign({ id: user._id }, process.env.JWT_SECRET)`. -/
def register (hash : String → String) (sign : Nat → String)
    (st : List StoredUser) (b : RegBody) : RouteResult :=
  let errs := validateRegister b
  if errs ≠ [] then ⟨400, ApiBody.errors errs, st, []⟩
  else
    let name := jsTrim b.name
    let email := normalizeEmail b.email
    match findUser st email with
    | some _ =>
      ⟨400, ApiBody.errMsg "User already exists", st, [DbOp.findOneUser email]⟩
    | none =>
      let doc := preSave hash ⟨name, email, b.password, true⟩
      let saved : StoredUser := ⟨freshId st, doc.name, doc.email, doc.password⟩
      ⟨201, ApiBody.authOk (sign saved.id) saved.id name email,
        st ++ [saved], [DbOp.findOneUser email, DbOp.saveUser saved]⟩

/-- Result of the login handler (it never touches the collection). -/
structure LoginResult where
  status : Nat
  body : ApiBody
deriving Repr, DecidableEq

/-- `POST /api/auth/login`: find by (raw) email, bcrypt-compare, and on both
failure paths answer the same `400 {error: "Invalid credentials"}`. -/
def login (compare : String → String → Bool) (sign : Nat → String)
    (st : List StoredUser) (email password : String) : LoginResult :=
  match findUser st email with
  | none => ⟨400, ApiBody.errMsg "Invalid credentials"⟩
  | some u =>
    if comparePassword compare u password then
      ⟨200, ApiBody.authOk (sign u.id) u.id u.name u.email⟩
    else ⟨400, ApiBody.errMsg "Invalid credentials"⟩

/-! ## Socket.IO handlers (`app.js` and `routes/socket.js`)

Emission targets distinguish Socket.IO's addressing modes:
`io.to(room)` reaches every socket in the room, the sender included;
`socket.to(room)` reaches the sockets in the room other than the sender;
`socket.broadcast` reaches every connected socket other than the sender. -/

inductive EmitTarget where
  | room (r : JScalar)
  | roomExceptSender (r : JScalar)
  | broadcastExceptSender
deriving Repr, DecidableEq

/-- One `emit` call: target, event name, payload object. -/
structure Emit where
  target : EmitTarget
  event : String
  payload : JObj
deriving Repr, DecidableEq

/-- `socket.on("sendMessage")` in `app.js`: destructure
`{ message, room, sender }` and `io.to(room).emit("message",
{ message, sender, timestamp: new Date() })`.  `now` models `new Date()`. -/
def sendMessageHandler (now : Nat) (data : JObj) : List Emit :=
  [⟨EmitTarget.room (getField data "room"), "message",
    [("message", getField data "message"),
     ("sender", getField data "sender"),
     ("timestamp", JScalar.num now)]⟩]

/-- `socket.on("typing")`: `socket.to(data.room).emit("userTyping",
{ user: data.user, isTyping: true })`. -/
def typingHandler (data : JObj) : List Emit :=
  [⟨EmitTarget.roomExceptSender (getField data "room"), "userTyping",
    [("user", getField data "user"), ("isTyping", JScalar.bool true)]⟩]

/-- `socket.on("stopTyping")`: same relay with `isTyping: false`. -/
def stopTypingHandler (data : JObj) : List Emit :=
  [⟨EmitTarget.roomExceptSender (getField data "room"), "userTyping",
    [("user", getField data "user"), ("isTyping", JScalar.bool false)]⟩]

/-! ## Socket handshake and presence rewiring

`app.js` installs a handshake middleware before any connection handler:

```js
const socketAuth = require("./middleware/socketAuth");
io.use(socketAuth);
```

`middleware/socketAuth.js`:

```js
const socketAuth = (socket, next) => {
  const token = socket.handshake.auth.token;
  if (!token) {
    return next(new Error("Authentication error"));
  }
  try {
    const decoded = jwt.verify(token, process.env.JWT_SECRET);
    socket.userId = decoded.id;
    socket.user = decoded;
    next();
  } catch (error) {
    next(new Error("Authentication error"));
  }
};
```

so every socket that reaches the `connection` handler already has
`socket.userId` set to the decoded payload's `id` field.  Then
`routes/socket.js` adds:

```js
socket.on("userOnline", (userId) => {
  socket.userId = userId;
  socket.broadcast.emit("userStatusChanged", { userId, status: "online" });
});
const originalDisconnect = socket.listeners("disconnect")[0];
socket.removeAllListeners("disconnect");
socket.on("disconnect", () => {
  if (socket.userId) {
    socket.broadcast.emit("userStatusChanged", { userId: socket.userId, status: "offline" });
  }
  if (originalDisconnect) originalDisconnect();
});
```
-/

/-- JS truthiness of a scalar: `undefined`, `""` and `0` are falsy. -/
def jsTruthy : JScalar → Bool
  | JScalar.str s => s ≠ ""
  | JScalar.num n => n ≠ 0
  | JScalar.bool b => b
  | JScalar.undef => false

/-- Per-socket state: `socket.userId` (any JS value; `JScalar.undef`
models `undefined`) and `socket.user` (the decoded handshake payload). -/
structure SockState where
  userId : JScalar
  user : Option JObj
deriving Repr, DecidableEq

/-- The `socketAuth` handshake middleware wired via `io.use` in `app.js`:
rejects the connection (`next(new Error(...))`, modelled as `none`) when
the handshake token is absent/empty or fails verification, otherwise
admits the socket with `socket.userId = decoded.id` and
`socket.user = decoded`.  `verify` abstracts `jwt.verify(·, JWT_SECRET)`
returning the decoded payload object. -/
def socketAuth (verify : String → Option JObj) (token : Option String) :
    Option SockState :=
  match token with
  | none => none
  | some t =>
    if t = "" then none
    else
      match verify t with
      | none => none
      | some decoded => some ⟨getField decoded "id", some decoded⟩

/-- The events a connected socket can receive that are relevant to
`socket.userId`: after the handshake, only the `userOnline` handler
assigns it; every other handler in `app.js` and `routes/socket.js`
leaves it alone. -/
inductive SockEvent where
  | userOnline (uid : JScalar)
  | otherEvent
deriving Repr, DecidableEq

/-- The `userOnline` handler: overwrite `socket.userId` with the received
value and broadcast the online status to the other sockets. -/
def userOnlineHandler (st : SockState) (uid : JScalar) : SockState × Emit :=
  ({ st with userId := uid },
   ⟨EmitTarget.broadcastExceptSender, "userStatusChanged",
    [("userId", uid), ("status", JScalar.str "online")]⟩)

/-- Effect of one received event on the socket state. -/
def applySockEvent (st : SockState) : SockEvent → SockState
  | SockEvent.userOnline uid => (userOnlineHandler st uid).1
  | SockEvent.otherEvent => st

/-- Socket state after a connection admitted with state `st₀` (produced by
the `socketAuth` handshake) received the given events. -/
def processEvents (st₀ : SockState) (evs : List SockEvent) : SockState :=
  evs.foldl applySockEvent st₀

/-- The `userId` the socket ends up with: the value of the most recent
`userOnline` event, or the initial (handshake) value when none arrived. -/
def finalUserId (h : JScalar) (evs : List SockEvent) : JScalar :=
  evs.foldl
    (fun acc e =>
      match e with
      | SockEvent.userOnline u => u
      | SockEvent.otherEvent => acc)
    h

/-- What the rewired disconnect handler does, in order. -/
inductive DiscAction where
  | emit (e : Emit)
  | callOriginal
deriving Repr, DecidableEq

/-- The offline broadcast sent on disconnect, carrying `socket.userId`. -/
def offlineEmit (uid : JScalar) : Emit :=
  ⟨EmitTarget.broadcastExceptSender, "userStatusChanged",
   [("userId", uid), ("status", JScalar.str "offline")]⟩

/-- The disconnect handler installed by `routes/socket.js`:
`if (socket.userId)` is JS truthiness, and the originally registered
handler (`socket.listeners("disconnect")[0]`, when one existed) runs
afterwards. -/
def rewiredDisconnect (st : SockState) (hasOriginal : Bool) :
    List DiscAction :=
  (if jsTruthy st.userId then [DiscAction.emit (offlineEmit st.userId)]
   else []) ++
  (if hasOriginal then [DiscAction.callOriginal] else [])

/-! ## Schema declarations (`models/User.js`, `models/Post.js`)

The Mongoose schema options are embedded as data so the declared
constraints can be inspected. -/

/-- One schema field: its name and the constraint flags the two schemas
use (`required`, `unique`, `trim`, and a `ref` to another model). -/
structure FieldSpec where
  fname : String
  required : Bool
  unique : Bool
  trim : Bool
  ref : Option String
deriving Repr, DecidableEq

/-- A schema: its fields plus the `timestamps` option. -/
structure SchemaSpec where
  fields : List FieldSpec
  timestamps : Bool
deriving Repr, DecidableEq

/-- `userSchema`: required trimmed `name`, required unique `email`,
required `password`; `timestamps: true`. -/
def userSchema : SchemaSpec :=
  ⟨[⟨"name", true, false, true, none⟩,
    ⟨"email", true, true, false, none⟩,
    ⟨"password", true, false, false, none⟩], true⟩

/-- `postSchema`: required `title`, required `content`, required `author`
referencing `User`; `timestamps: true`. -/
def postSchema : SchemaSpec :=
  ⟨[⟨"title", true, false, false, none⟩,
    ⟨"content", true, false, false, none⟩,
    ⟨"author", true, false, false, some "User"⟩], true⟩

/-! ## Concrete instances of the external-library parameters

Used by counterexamples and witnesses.  `demoHash` prepends a character
(so a hash is never its own input and hashing is injective), `demoCompare`
checks the stored value against the candidate's hash, `demoSign` encodes
the id.  They satisfy exactly the properties the bcrypt/jwt hypotheses
ask for. -/

def demoHash (p : String) : String := ⟨'h' :: p.data⟩

def demoCompare (candidate stored : String) : Bool :=
  stored == demoHash candidate

def demoSign (id : Nat) : String := "token" ++ toString id

/-- A verifier for witnesses: accepts exactly the token `"tok1"`, decoding
it to the payload `{ id := 7 }`. -/
def demoVerify (t : String) : Option JwtPayload :=
  if t = "tok1" then some ⟨7⟩ else none

/-- A handshake verifier for the socket layer: accepts exactly the token
`"sock1"`, decoding it to the payload object with id `"64a1"` (app-issued
tokens carry the user's ObjectId serialized as a hex string). -/
def demoSockVerify (t : String) : Option JObj :=
  if t = "sock1" then some [("id", JScalar.str "64a1")] else none

theorem demoHash_inj (p c : String) : demoHash p = demoHash c ↔ p = c := by
  cases p
  cases c
  simp [demoHash, String.ext_iff]

theorem demoHash_ne (p : String) : demoHash p ≠ p := by
  cases p with
  | mk l =>
    intro h
    simp [demoHash, String.ext_iff] at h

theorem demoCompare_hash (c p : String) :
    demoCompare c (demoHash p) = (c == p) := by
  by_cases h : c = p
  · subst h
    simp [demoCompare]
  · have h2 : ¬(demoHash p = demoHash c) := by
      intro hh
      exact h ((demoHash_inj p c).mp hh).symm
    simp [demoCompare, h, h2]

/-! ## Claim theorems -/

/-- C1: for every request to an auth-guarded route, when the Authorization
header yields no token (absent header or empty extraction) or the token
fails JWT verification, the middleware answers 401 with a JSON error and
does not call `next()`; otherwise it attaches the decoded payload as
`req.user` and calls `next()` (the `authorized` outcome). -/
theorem C1_auth_middleware (verify : String → Option JwtPayload)
    (header : Option String) :
    ((extractToken header = none ∨ extractToken header = some "") →
      auth verify header =
        AuthOutcome.denied 401 "No token, authorization denied") ∧
    (∀ t, extractToken header = some t → t ≠ "" → verify t = none →
      auth verify header = AuthOutcome.denied 401 "Token is not valid") ∧
    (∀ t p, extractToken header = some t → t ≠ "" → verify t = some p →
      auth verify header = AuthOutcome.authorized p.id) := by
  refine ⟨?_, ?_, ?_⟩
  · rintro (h | h) <;> simp [auth, h]
  · intro t ht hne hv
    simp [auth, ht, hne, hv]
  · intro t p ht hne hv
    simp [auth, ht, hne, hv]

/-- C1 witness: concrete runs of the middleware with a verifier accepting
exactly the token `tok1` (decoding to id 7). -/
theorem C1_auth_middleware_witness :
    auth demoVerify (some "Bearer tok1") = AuthOutcome.authorized 7 ∧
    auth demoVerify none =
      AuthOutcome.denied 401 "No token, authorization denied" ∧
    auth demoVerify (some "Bearer bad") =
      AuthOutcome.denied 401 "Token is not valid" :=
  ⟨(C1_auth_middleware demoVerify (some "Bearer tok1")).2.2 "tok1" ⟨7⟩
      (by decide) (by decide) (by decide),
   (C1_auth_middleware demoVerify none).1 (Or.inl (by decide)),
   (C1_auth_middleware demoVerify (some "Bearer bad")).2.1 "bad"
      (by decide) (by decide) (by decide)⟩

/-- C2 counterexample: an error named `CastError` whose `code` is also
11000 gets status 400, not 404 (the three checks run in sequence, the
duplicate-key check overriding), and an unrecognised error carrying its
own `statusCode` (here 418) is answered with that status, not 500. -/
theorem C2_counterexample :
    (errorHandler ⟨"CastError", some 11000, "x", none, []⟩).status ≠ 404 ∧
    (errorHandler ⟨"SomeError", none, "boom", some 418, []⟩).status ≠ 500 := by
  decide

/-- C2 (amended): the checks apply in sequence with later checks winning,
so effective precedence is ValidationError (400, array of messages), then
duplicate-key code 11000 (400, "Duplicate field value entered"), then
CastError (404, "Resource not found"); any other error is answered with
its own nonzero `statusCode` when it carries one and 500 otherwise, with
message `err.message` or "Server Error" when that is empty; the body
always has `success: false`. -/
theorem C2_errorHandler (err : ErrInput) :
    errorHandler err =
      if err.name = "ValidationError" then
        ⟨400, false, MsgVal.arr err.errors⟩
      else if err.code = some 11000 then
        ⟨400, false, MsgVal.str "Duplicate field value entered"⟩
      else if err.name = "CastError" then
        ⟨404, false, MsgVal.str "Resource not found"⟩
      else
        ⟨statusOr500 err.statusCode, false,
          if err.message = "" then MsgVal.str "Server Error"
          else MsgVal.str err.message⟩ := by
  unfold errorHandler
  by_cases h1 : err.name = "ValidationError" <;>
    by_cases h2 : err.code = some 11000 <;>
      by_cases h3 : err.name = "CastError" <;>
        by_cases h4 : err.message = "" <;>
          simp [h1, h2, h3, h4, msgTruthy, statusOr500]

/-- C4: a freshly modified password is persisted only as its bcrypt hash,
never as the plaintext, and comparing a candidate against the saved
record succeeds exactly when the candidate is the originally supplied
password.  `hash`/`compare` abstract `bcrypt.hash(·, 10)`/`bcrypt.compare`
with the properties bcrypt documents as hypotheses. -/
theorem C4_password_hashing (hash : String → String)
    (compare : String → String → Bool) (doc : UserDoc)
    (hcmp : ∀ c p, compare c (hash p) = (c == p))
    (hne : ∀ p, hash p ≠ p)
    (hmod : doc.passwordModified = true) :
    (preSave hash doc).password = hash doc.password ∧
    (preSave hash doc).password ≠ doc.password ∧
    ∀ (i : Nat) (c : String),
      comparePassword compare
        ⟨i, doc.name, doc.email, (preSave hash doc).password⟩ c =
        (c == doc.password) := by
  refine ⟨?_, ?_, ?_⟩
  · simp [preSave, hmod]
  · simp [preSave, hmod]
    exact hne doc.password
  · intro i c
    simp [preSave, hmod, comparePassword]
    exact hcmp c doc.password

/-- C4 witness: a concrete document saved with the demo bcrypt model; the
stored password is not the plaintext and comparison accepts exactly it. -/
theorem C4_password_hashing_witness :
    (preSave demoHash ⟨"Alice", "alice@example.com", "secret1", true⟩).password ≠
      "secret1" ∧
    comparePassword demoCompare
      ⟨0, "Alice", "alice@example.com",
        (preSave demoHash ⟨"Alice", "alice@example.com", "secret1", true⟩).password⟩
      "secret1" = true ∧
    comparePassword demoCompare
      ⟨0, "Alice", "alice@example.com",
        (preSave demoHash ⟨"Alice", "alice@example.com", "secret1", true⟩).password⟩
      "wrong" = false := by
  have h := C4_password_hashing demoHash demoCompare
    ⟨"Alice", "alice@example.com", "secret1", true⟩
    demoCompare_hash demoHash_ne rfl
  exact ⟨h.2.1, (h.2.2 0 "secret1").trans (by decide),
    (h.2.2 0 "wrong").trans (by decide)⟩

/-- C3 counterexample: two register requests whose email equals a stored
user's email but which do not behave as the claim states.  First, a
request that fails validation (password too short) is answered 400 with
the validation errors, not with the body `error: "User already exists"`.
Second, when the stored email contains an upper-case letter, a request
with the very same email string is normalized (lowercased) before the
lookup, misses the stored user, and creates a second account (201, the
collection grows). -/
theorem C3_counterexample :
    ((register demoHash demoSign
        [⟨0, "Existing User", "test@example.com", "password123"⟩]
        ⟨"Test User", "test@example.com", "123"⟩).body ≠
      ApiBody.errMsg "User already exists") ∧
    ((register demoHash demoSign
        [⟨0, "Existing", "Test@example.com", "password123"⟩]
        ⟨"Test User", "Test@example.com", "password123"⟩).status = 201 ∧
      (register demoHash demoSign
        [⟨0, "Existing", "Test@example.com", "password123"⟩]
        ⟨"Test User", "Test@example.com", "password123"⟩).state.length = 2) := by
  decide

/-- C3 (amended): for every register request that passes the validation
chain and whose normalized (lowercased) email equals the email of an
already-stored user, the response is 400 with body
`error: "User already exists"` and the users collection is unchanged (the
only database operation is the lookup). -/
theorem C3_duplicate_email (hash : String → String) (sign : Nat → String)
    (st : List StoredUser) (b : RegBody) (u : StoredUser)
    (hval : validateRegister b = [])
    (hfind : findUser st (normalizeEmail b.email) = some u) :
    register hash sign st b =
      ⟨400, ApiBody.errMsg "User already exists", st,
        [DbOp.findOneUser (normalizeEmail b.email)]⟩ := by
  unfold register
  simp [hval, hfind]

/-- C3 witness: the duplicate-registration scenario of the test suite
(store `test@example.com`, register it again) answered 400 with the
collection unchanged. -/
theorem C3_duplicate_email_witness :
    register demoHash demoSign
        [⟨0, "Existing User", "test@example.com", "password123"⟩]
        ⟨"Test User", "test@example.com", "password123"⟩ =
      ⟨400, ApiBody.errMsg "User already exists",
        [⟨0, "Existing User", "test@example.com", "password123"⟩],
        [DbOp.findOneUser "test@example.com"]⟩ :=
  (C3_duplicate_email demoHash demoSign
      [⟨0, "Existing User", "test@example.com", "password123"⟩]
      ⟨"Test User", "test@example.com", "password123"⟩
      ⟨0, "Existing User", "test@example.com", "password123"⟩
      (by decide) (by decide)).trans (by decide)

/-- C5: the persistent data model is exactly the two declared schemas:
User has the fields name, email, password, all required, with uniqueness
on email only and no reference fields; Post has the fields title,
content, author, all required, with no uniqueness and with author the
only reference, pointing at User. -/
theorem C5_schema_shapes :
    userSchema.fields.map FieldSpec.fname = ["name", "email", "password"] ∧
    userSchema.fields.all (fun f => f.required) = true ∧
    userSchema.fields.all (fun f => f.unique == (f.fname == "email")) = true ∧
    userSchema.fields.all (fun f => f.ref == none) = true ∧
    postSchema.fields.map FieldSpec.fname = ["title", "content", "author"] ∧
    postSchema.fields.all (fun f => f.required) = true ∧
    postSchema.fields.all (fun f => f.unique == false) = true ∧
    postSchema.fields.all
      (fun f => f.ref == (if f.fname == "author" then some "User" else none)) =
      true := by
  decide

/-- C6 counterexample: the `sendMessage` relay does not forward the
received data unchanged: for a concrete `{message, room, sender}` event
the emitted payload drops the `room` field and adds a server `timestamp`,
so it differs from the received object. -/
theorem C6_counterexample :
    sendMessageHandler 0
        [("message", JScalar.str "hi"), ("room", JScalar.str "room1"),
         ("sender", JScalar.str "alice")] ≠
      [⟨EmitTarget.room (JScalar.str "room1"), "message",
        [("message", JScalar.str "hi"), ("room", JScalar.str "room1"),
         ("sender", JScalar.str "alice")]⟩] := by
  decide

/-- C6 (amended): every `sendMessage` event produces exactly one emission,
a `message` event addressed to the named room (sender included), whose
payload carries the received `message` and `sender` values unchanged plus
a fresh server `timestamp`; the `room` field is not echoed in the
payload. -/
theorem C6_sendMessage (now : Nat) (data : JObj) :
    (sendMessageHandler now data).length = 1 ∧
    ∀ e ∈ sendMessageHandler now data,
      e.target = EmitTarget.room (getField data "room") ∧
      e.event = "message" ∧
      getField e.payload "message" = getField data "message" ∧
      getField e.payload "sender" = getField data "sender" ∧
      getField e.payload "timestamp" = JScalar.num now ∧
      getField e.payload "room" = JScalar.undef := by
  refine ⟨rfl, ?_⟩
  intro e he
  simp [sendMessageHandler] at he
  subst he
  refine ⟨rfl, rfl, ?_, ?_, ?_, ?_⟩ <;> simp [getField, List.find?]

/-- C6 witness: the emission for a concrete event has the payload fields
the amended claim states (in particular no `room` field). -/
theorem C6_sendMessage_witness :
    Emit.target
        ⟨EmitTarget.room (JScalar.str "room1"), "message",
          [("message", JScalar.str "hi"), ("sender", JScalar.str "alice"),
           ("timestamp", JScalar.num 0)]⟩ =
      EmitTarget.room
        (getField
          [("message", JScalar.str "hi"), ("room", JScalar.str "room1"),
           ("sender", JScalar.str "alice")] "room") ∧
    getField
        (Emit.payload
          ⟨EmitTarget.room (JScalar.str "room1"), "message",
            [("message", JScalar.str "hi"), ("sender", JScalar.str "alice"),
             ("timestamp", JScalar.num 0)]⟩) "room" = JScalar.undef := by
  have h := (C6_sendMessage 0
    [("message", JScalar.str "hi"), ("room", JScalar.str "room1"),
     ("sender", JScalar.str "alice")]).2
    ⟨EmitTarget.room (JScalar.str "room1"), "message",
      [("message", JScalar.str "hi"), ("sender", JScalar.str "alice"),
       ("timestamp", JScalar.num 0)]⟩ (by decide)
  exact ⟨h.1, h.2.2.2.2.2⟩

/-- C7: `typing` and `stopTyping` are a matched pair of relays: each
produces exactly one `userTyping` emission to the sockets of the named
room other than the sender, carrying the received `user` and
`isTyping: true` resp. `isTyping: false`; the two relays agree on target
and event name. -/
theorem C7_typing_pair (data : JObj) :
    (typingHandler data).length = 1 ∧
    (stopTypingHandler data).length = 1 ∧
    (∀ e ∈ typingHandler data,
      e.target = EmitTarget.roomExceptSender (getField data "room") ∧
      e.event = "userTyping" ∧
      getField e.payload "user" = getField data "user" ∧
      getField e.payload "isTyping" = JScalar.bool true) ∧
    (∀ e ∈ stopTypingHandler data,
      e.target = EmitTarget.roomExceptSender (getField data "room") ∧
      e.event = "userTyping" ∧
      getField e.payload "user" = getField data "user" ∧
      getField e.payload "isTyping" = JScalar.bool false) := by
  refine ⟨rfl, rfl, ?_, ?_⟩
  · intro e he
    simp [typingHandler] at he
    subst he
    refine ⟨rfl, rfl, ?_, ?_⟩ <;> simp [getField, List.find?]
  · intro e he
    simp [stopTypingHandler] at he
    subst he
    refine ⟨rfl, rfl, ?_, ?_⟩ <;> simp [getField, List.find?]

/-- C7 witness: the typing relay for a concrete event targets the room
excluding the sender and carries `isTyping: true`. -/
theorem C7_typing_pair_witness :
    Emit.target
        ⟨EmitTarget.roomExceptSender (JScalar.str "room1"), "userTyping",
          [("user", JScalar.str "bob"), ("isTyping", JScalar.bool true)]⟩ =
      EmitTarget.roomExceptSender
        (getField
          [("room", JScalar.str "room1"), ("user", JScalar.str "bob")]
          "room") ∧
    getField
        (Emit.payload
          ⟨EmitTarget.roomExceptSender (JScalar.str "room1"), "userTyping",
            [("user", JScalar.str "bob"), ("isTyping", JScalar.bool true)]⟩)
        "isTyping" = JScalar.bool true := by
  have h := (C7_typing_pair
    [("room", JScalar.str "room1"), ("user", JScalar.str "bob")]).2.2.1
    ⟨EmitTarget.roomExceptSender (JScalar.str "room1"), "userTyping",
      [("user", JScalar.str "bob"), ("isTyping", JScalar.bool true)]⟩
    (by decide)
  exact ⟨h.1, h.2.2.2⟩

/-- C8: a register request failing the validation chain (trimmed name
shorter than 2, invalid email, or password shorter than 6) is answered
400 with a nonempty errors array, the users collection is unchanged, and
no database operation (lookup or save) is performed. -/
theorem C8_validation_rejects (hash : String → String) (sign : Nat → String)
    (st : List StoredUser) (b : RegBody)
    (h : (jsTrim b.name).length < 2 ∨ isEmailValid b.email = false ∨
      b.password.length < 6) :
    (register hash sign st b).status = 400 ∧
    (∃ l, (register hash sign st b).body = ApiBody.errors l ∧ l ≠ []) ∧
    (register hash sign st b).state = st ∧
    (register hash sign st b).dbOps = [] := by
  have hne : validateRegister b ≠ [] := by
    unfold validateRegister
    rcases h with h | h | h <;> simp [h]
  unfold register
  simp [hne]

/-- C8 witness: a concrete request with a too-short password is rejected
with no database operations. -/
theorem C8_validation_rejects_witness :
    (register demoHash demoSign [] ⟨"Al", "a@b.com", "123"⟩).status = 400 ∧
    (register demoHash demoSign [] ⟨"Al", "a@b.com", "123"⟩).dbOps = [] :=
  ⟨(C8_validation_rejects demoHash demoSign [] ⟨"Al", "a@b.com", "123"⟩
      (Or.inr (Or.inr (by decide)))).1,
   (C8_validation_rejects demoHash demoSign [] ⟨"Al", "a@b.com", "123"⟩
      (Or.inr (Or.inr (by decide)))).2.2.2⟩

/-- C9: login failure is indistinguishable at the interface: a request
whose email matches no stored user and a request whose email matches a
user but whose password fails the bcrypt comparison receive the identical
response, 400 with body `error: "Invalid credentials"`. -/
theorem C9_login_indistinguishable (compare : String → String → Bool)
    (sign : Nat → String)
    (st₁ : List StoredUser) (e₁ p₁ : String)
    (st₂ : List StoredUser) (e₂ p₂ : String) (u : StoredUser)
    (h₁ : findUser st₁ e₁ = none)
    (h₂ : findUser st₂ e₂ = some u)
    (h₃ : compare p₂ u.password = false) :
    login compare sign st₁ e₁ p₁ = login compare sign st₂ e₂ p₂ ∧
    login compare sign st₁ e₁ p₁ =
      ⟨400, ApiBody.errMsg "Invalid credentials"⟩ := by
  unfold login comparePassword
  simp [h₁, h₂, h₃]

/-- C9 witness: an unknown email against an empty collection and a wrong
password against a stored user produce the same concrete response. -/
theorem C9_login_indistinguishable_witness :
    login demoCompare demoSign [] "x@y.com" "whatever" =
      login demoCompare demoSign
        [⟨0, "A", "a@b.com", demoHash "pw123456"⟩] "a@b.com" "wrong" ∧
    login demoCompare demoSign [] "x@y.com" "whatever" =
      ⟨400, ApiBody.errMsg "Invalid credentials"⟩ :=
  C9_login_indistinguishable demoCompare demoSign [] "x@y.com" "whatever"
    [⟨0, "A", "a@b.com", demoHash "pw123456"⟩] "a@b.com" "wrong"
    ⟨0, "A", "a@b.com", demoHash "pw123456"⟩
    (by decide) (by decide) (by decide)

/-- The `userId` seen after folding the received events over any initial
(handshake) state is the most recent `userOnline` value, or the initial
one when no `userOnline` arrived. -/
theorem foldl_userId_eq (evs : List SockEvent) :
    ∀ init : SockState,
      (evs.foldl applySockEvent init).userId = finalUserId init.userId evs := by
  induction evs with
  | nil => intro init; rfl
  | cons e rest ih =>
    intro init
    cases e with
    | userOnline uid =>
      simp [List.foldl, applySockEvent, userOnlineHandler, finalUserId, ih]
    | otherEvent =>
      simp [List.foldl, applySockEvent, finalUserId, ih]

/-- C10 counterexample, both directions of the claimed iff.  Only if: a
socket admitted by the `socketAuth` handshake (which already set
`socket.userId` to the decoded id `"64a1"`) that never receives a
`userOnline` event still broadcasts `userStatusChanged offline` on
disconnect.  If: a socket that did receive a `userOnline` event, carrying
the empty string (assigned, but falsy in JS), broadcasts nothing — only
the original handler runs. -/
theorem C10_counterexample :
    socketAuth demoSockVerify (some "sock1") =
      some ⟨JScalar.str "64a1", some [("id", JScalar.str "64a1")]⟩ ∧
    rewiredDisconnect
        (processEvents ⟨JScalar.str "64a1", some [("id", JScalar.str "64a1")]⟩
          []) true =
      [DiscAction.emit (offlineEmit (JScalar.str "64a1")),
       DiscAction.callOriginal] ∧
    (SockEvent.userOnline (JScalar.str "") ∈
      [SockEvent.userOnline (JScalar.str "")]) ∧
    rewiredDisconnect
        (processEvents ⟨JScalar.str "64a1", some [("id", JScalar.str "64a1")]⟩
          [SockEvent.userOnline (JScalar.str "")]) true =
      [DiscAction.callOriginal] := by
  decide

/-- C10 (amended): every connected socket passed the `socketAuth`
handshake, which set `socket.userId` to the decoded token payload's `id`
field; after any sequence of received events the socket's `userId` is the
most recent `userOnline` value (the handshake id when none arrived), and
on disconnect a `userStatusChanged offline` broadcast carrying that value
is sent iff it is truthy (JS truthiness: `undefined`, `""` and `0` are
falsy); no other emission happens, and the originally registered
disconnect handler is invoked — after the broadcast, i.e. as the last
action — whenever one existed. -/
theorem C10_presence_rewired (verify : String → Option JObj)
    (token : Option String) (st₀ : SockState) (evs : List SockEvent)
    (hasOrig : Bool)
    (hconn : socketAuth verify token = some st₀) :
    (∃ t decoded, token = some t ∧ verify t = some decoded ∧
      st₀.userId = getField decoded "id") ∧
    (processEvents st₀ evs).userId = finalUserId st₀.userId evs ∧
    ((DiscAction.emit (offlineEmit (processEvents st₀ evs).userId) ∈
        rewiredDisconnect (processEvents st₀ evs) hasOrig) ↔
      jsTruthy (processEvents st₀ evs).userId = true) ∧
    (∀ a ∈ rewiredDisconnect (processEvents st₀ evs) hasOrig,
      a = DiscAction.emit (offlineEmit (processEvents st₀ evs).userId) ∨
      a = DiscAction.callOriginal) ∧
    (DiscAction.callOriginal ∈ rewiredDisconnect (processEvents st₀ evs) hasOrig ↔
      hasOrig = true) ∧
    (hasOrig = true →
      (rewiredDisconnect (processEvents st₀ evs) hasOrig).getLast? =
        some DiscAction.callOriginal) := by
  refine ⟨?_, foldl_userId_eq evs st₀, ?_, ?_, ?_, ?_⟩
  · unfold socketAuth at hconn
    rcases token with _ | t
    · simp at hconn
    · by_cases ht : t = ""
      · simp [ht] at hconn
      · rcases hv : verify t with _ | decoded
        · simp [ht, hv] at hconn
        · simp [ht, hv] at hconn
          exact ⟨t, decoded, rfl, hv, by rw [← hconn]⟩
  all_goals
    unfold rewiredDisconnect
    by_cases htr : jsTruthy (processEvents st₀ evs).userId = true <;>
      cases hasOrig <;>
        simp [htr, List.getLast?]

/-- C10 witness: a socket admitted with handshake id `"64a1"` that then
receives `userOnline "u1"` broadcasts offline for `"u1"` on disconnect,
with the original handler's call as the last action. -/
theorem C10_presence_rewired_witness :
    (DiscAction.emit (offlineEmit
        (processEvents
          ⟨JScalar.str "64a1", some [("id", JScalar.str "64a1")]⟩
          [SockEvent.userOnline (JScalar.str "u1")]).userId) ∈
      rewiredDisconnect
        (processEvents
          ⟨JScalar.str "64a1", some [("id", JScalar.str "64a1")]⟩
          [SockEvent.userOnline (JScalar.str "u1")]) true) ∧
    (rewiredDisconnect
        (processEvents
          ⟨JScalar.str "64a1", some [("id", JScalar.str "64a1")]⟩
          [SockEvent.userOnline (JScalar.str "u1")]) true).getLast? =
      some DiscAction.callOriginal := by
  have h := C10_presence_rewired demoSockVerify (some "sock1")
    ⟨JScalar.str "64a1", some [("id", JScalar.str "64a1")]⟩
    [SockEvent.userOnline (JScalar.str "u1")] true (by decide)
  exact ⟨(h.2.2.1).mpr (by decide), h.2.2.2.2.2 rfl⟩

end ExpressApp
